import Mathlib

/-!
Verification of the ScreenGPT-OCR repository against its specification.

The Python sources are shallowly embedded: pure computations become Lean
functions over `ℚ`/`ℤ`/`String`, stateful methods become explicit
state-passing functions, and calls into external libraries (EasyOCR, the
vision model, the OpenAI client, mss, pyttsx3) are parametrised by an
explicit outcome value (`Except`/oracle arguments), since the spec treats
them as opaque collaborators.
-/

namespace ScreenGPT

/-! ## OCR stage: `ProcessingThread.extract_text_from_image` (src/core/processing.py)

A detection returned by `reader.readtext` is a quadruple bounding box, a
recognized string and a confidence.  Coordinates and confidences are
modelled as rationals. -/

structure Detection where
  p0 : ℚ × ℚ
  p1 : ℚ × ℚ
  p2 : ℚ × ℚ
  p3 : ℚ × ℚ
  text : String
  prob : ℚ
deriving DecidableEq

/-- Images are opaque bitmaps; drawing a bounding box plus label for a
detection (the `cv2.polylines`/`draw.text` block) produces a new bitmap.
We model bitmaps as a free algebra over these drawing operations. -/
inductive Img where
  | source (id : ℕ)
  | drawn (base : Img) (d : Detection)
deriving DecidableEq

/-- An entry of the `text_positions` list built by
`extract_text_from_image`: the dictionary
`{"text": ..., "x": x_center, "y": y_center, "confidence": prob}`
(braces as in the Python source). -/
structure TextPosition where
  text : String
  x : ℚ
  y : ℚ
  confidence : ℚ
deriving DecidableEq

/-- The sort key used at processing.py line 265:
`text_positions.sort(key=lambda x: (x["y"], x["x"]))`, i.e. Python tuple
comparison on `(y, x)`. -/
def posLE (p q : TextPosition) : Prop :=
  p.y < q.y ∨ (p.y = q.y ∧ p.x ≤ q.x)

instance : DecidableRel posLE := fun p q => by
  unfold posLE; infer_instance

instance : IsTotal TextPosition posLE := by
  constructor
  intro a b
  rcases lt_trichotomy a.y b.y with h | h | h
  · exact Or.inl (Or.inl h)
  · rcases le_total a.x b.x with hx | hx
    · exact Or.inl (Or.inr ⟨h, hx⟩)
    · exact Or.inr (Or.inr ⟨h.symm, hx⟩)
  · exact Or.inr (Or.inl h)

instance : IsTrans TextPosition posLE := by
  constructor
  intro a b c hab hbc
  rcases hab with h1 | ⟨h1, hx1⟩
  · rcases hbc with h2 | ⟨h2, _⟩
    · exact Or.inl (h1.trans h2)
    · exact Or.inl (h2 ▸ h1)
  · rcases hbc with h2 | ⟨h2, hx2⟩
    · exact Or.inl (h1 ▸ h2)
    · exact Or.inr ⟨h1.trans h2, hx1.trans hx2⟩

/-- Center of a detection, as computed at processing.py lines 226-227:
`x_center = sum(point[0] for point in bbox) / 4` and similarly for `y`,
packaged into the `text_positions` entry of line 230. -/
def toTextPosition (d : Detection) : TextPosition :=
  { text := d.text
    x := (d.p0.1 + d.p1.1 + d.p2.1 + d.p3.1) / 4
    y := (d.p0.2 + d.p1.2 + d.p2.2 + d.p3.2) / 4
    confidence := d.prob }

/-- The confidence filter of processing.py line 219: `if prob > 0.5`. -/
def confAccept (d : Detection) : Bool :=
  decide ((5 : ℚ) / 10 < d.prob)

/-- `ProcessingThread.extract_text_from_image` (processing.py lines
202-273).  The call `self.reader.readtext ...` together with the image
preprocessing is represented by the `ocr` argument: `Except.error`
stands for any exception raised inside the `try` block, `Except.ok
results` for a normal return of the detection list.  Returns the
`(full_text, drawn_img, text_positions)` triple of line 270, or the
`("", img, [])` triple of line 273 on an exception. -/
def extract_text_from_image (img : Img) (ocr : Except String (List Detection)) :
    String × Img × List TextPosition :=
  match ocr with
  | Except.error _ => ("", img, [])
  | Except.ok results =>
      let accepted := results.filter confAccept
      let drawn_img := accepted.foldl Img.drawn img
      let text_positions := List.insertionSort posLE (accepted.map toTextPosition)
      let full_text := String.intercalate " " (accepted.map (fun d => d.text))
      (full_text, drawn_img, text_positions)

/-! ## Pipeline orchestration: `ProcessingThread.run` (processing.py lines 58-200)

The observable behaviour of a run is the sequence of Qt signal emissions:
`progress`, `tab_update`, `error` and `finished`.  The external stages
(vision captioning, the OpenAI request) and the presence of the image,
models and API key are inputs of the embedded function. -/

inductive Event where
  | progress (msg : String)
  | tabUpdate (idx : ℕ) (img : Img) (text : String)
  | error (msg : String)
  | finished (result : String)
deriving DecidableEq

/-- Python `int()` truncates toward zero, as used in
`f"... (x: ..., y: ...)"` at processing.py line 115. -/
def pyInt (q : ℚ) : ℤ :=
  q.num.tdiv (q.den : ℤ)

/-- `text_positions_str` (processing.py lines 113-118). -/
def textPositionsStr (tps : List TextPosition) : String :=
  String.intercalate "\n" (tps.map (fun pos =>
    "Text: \x27" ++ pos.text ++ "\x27 at position (x: " ++ toString (pyInt pos.x)
      ++ ", y: " ++ toString (pyInt pos.y) ++ ")"))

/-- The GPT-4 prompt f-string (processing.py lines 121-148). -/
def buildPrompt (text_positions_str vision_text : String) : String :=
  "You are looking at a screenshot that contains both text and visual elements. Your task is to describe what you see by combining the visible text and visuals to provide an accurate explanation.\n\nText Content with Positions:\n"
    ++ text_positions_str
    ++ "\nPlease group text that appears close together and likely relates to the same topic.\n\nVisual Description:\n"
    ++ vision_text
    ++ "\n\nInstructions:\n1. ONLY describe what is clearly visible in the data provided.\n2. Focus on identifying the type of interface or application shown.\n3. Group and organize the text based on where it appears (top to bottom, left to right).\n4. Use the positions of the text to understand how elements relate to each other.\n5. Pull out and structure the most important information in a logical order.\n6. If there are different sections or paragraphs, present them clearly and separately.\n7. Do NOT guess or add information not supported by what you see.\n8. If anything is unclear, feel free to acknowledge the uncertainty.\n9. there might be typo or partial character misread by ocr, you should either correct them or ignore them.\nYour final response should:\n1. Identify the type of interface or application shown.\n2. Group related text based on their placement.\n3. Present all important content in a well-organized way.\n4. Highlight the key details and messages.\n5. Keep the original meaning and context intact.\n\nPlease make your answer sound like a natural conversation, suitable for anyone aged 10 to 60. Talk as if you\x27re describing the screenshot to a friend—clearly, thoroughly, and without mentioning any technical terms like OCR or analysis. Make it as detailed as possible, but only include what\x27s relevant to the screenshot.\n"

/-- `prompts_text` (processing.py lines 152-159). -/
def promptsText (text_positions_str vision_text prompt : String) : String :=
  "🔍 OCR Analysis Results:\n" ++ text_positions_str
    ++ "\n\n👁️ Visual Analysis Results:\n" ++ vision_text
    ++ "\n\n🤖 GPT-4 Analysis Prompt:\n" ++ prompt

/-- Inputs of one `ProcessingThread.run` invocation: the thread fields
`self.img`, `self.model`/`self.processor`, the environment variable
`OPENAI_API_KEY`, and the outcomes of the three external calls (OCR,
vision generation, chat completion). -/
structure RunState where
  img : Option Img
  modelInit : Bool
  processorInit : Bool
  ocrOutcome : Except String (List Detection)
  visionOutcome : Except String String
  apiKey : Option String
  llmOutcome : Except String String

/-- `ProcessingThread.run` (processing.py lines 58-200), as the list of
emitted signals in order.  The vision stage sits inside the outer `try`,
so an exception there reaches the handler of line 199; the OpenAI call
has its own inner `try` (lines 167-184) whose handler turns the failure
into the text `"Error: ..."` and falls through to the remaining tab
updates and the `finished` emission. -/
def ProcessingThread.run (st : RunState) : List Event :=
  match st.img with
  | none => [Event.error "No image to process"]
  | some img =>
    let e0 := Event.progress "\n🔍 Running OCR analysis..."
    let res := extract_text_from_image img st.ocrOutcome
    let ocr_text := res.1
    let drawn_img := res.2.1
    let text_positions := res.2.2
    let e1 := Event.tabUpdate 0 drawn_img
      ("✅ OCR Analysis Complete\n\n📝 Extracted Text:\n" ++ ocr_text)
    if st.modelInit = false ∨ st.processorInit = false then
      [e0, e1, Event.error "❌ Error: Vision model not initialized"]
    else
      let e2 := Event.progress "\n👁️ Running Visual Analysis..."
      match st.visionOutcome with
      | Except.error e => [e0, e1, e2, Event.error ("Error in processing thread: " ++ e)]
      | Except.ok vision_text =>
        let e3 := Event.tabUpdate 0 drawn_img
          ("✅ Visual Analysis Complete\n\n🎯 Visual Description:\n" ++ vision_text)
        match st.apiKey with
        | none => [e0, e1, e2, e3, Event.error "❌ Error: OPENAI_API_KEY not set in environment."]
        | some key =>
          if key = "" then
            [e0, e1, e2, e3, Event.error "❌ Error: OPENAI_API_KEY not set in environment."]
          else
            let e4 := Event.progress "\n🤖 Running AI Analysis..."
            let tps_str := textPositionsStr text_positions
            let prompt := buildPrompt tps_str vision_text
            let e5 := Event.tabUpdate 1 drawn_img
              ("✅ Analysis Prompts\n\n" ++ promptsText tps_str vision_text prompt)
            let final_analysis :=
              match st.llmOutcome with
              | Except.ok resp => resp.trim
              | Except.error e => "Error: " ++ e
            let e6 := Event.tabUpdate 2 drawn_img
              ("✅ AI Analysis Complete\n\n📊 Final Analysis:\n" ++ final_analysis)
            let e7 := Event.progress "\n✨ Check the tabs above for detailed processing steps."
            [e0, e1, e2, e3, e4, e5, e6, e7, Event.finished final_analysis]

/-- Whether an emitted signal is an `error` emission. -/
def Event.isError : Event → Bool
  | Event.error _ => true
  | _ => false

/-- Whether an emitted signal is a `finished` emission. -/
def Event.isFinished : Event → Bool
  | Event.finished _ => true
  | _ => false

/-- Whether an emitted signal is a `tab_update` of the final-analysis tab
(index 2). -/
def Event.isFinalTab : Event → Bool
  | Event.tabUpdate i _ _ => i = 2
  | _ => false

/-! ## Image viewer: `ImageViewer` (src/ui/image_viewer.py) and the
app-level zoom handlers (src/app.py lines 737-753)

The viewer state consists of the stored pixmap, the zoom factor and the
enabled flags of the download and zoom controls.  Pixel dimensions are
naturals, the zoom factor a rational. -/

structure Pixmap where
  width : ℕ
  height : ℕ
deriving DecidableEq

structure ViewerState where
  original_pixmap : Option Pixmap
  zoom_factor : ℚ
  downloadEnabled : Bool
  zoomOutEnabled : Bool
  zoomResetEnabled : Bool
  zoomInEnabled : Bool
deriving DecidableEq

/-- The clamp expression used at image_viewer.py lines 285 and 417:
`self.zoom_factor = max(0.1, min(self.zoom_factor, 5.0))`. -/
def clampZoom (z : ℚ) : ℚ :=
  max (1 / 10) (min z 5)

/-- `ImageViewer.zoom_image` (image_viewer.py lines 279-286). -/
def zoom_image (st : ViewerState) (factor : ℚ) : ViewerState :=
  match st.original_pixmap with
  | none => st
  | some _ => { st with zoom_factor := clampZoom (st.zoom_factor * factor) }

/-- `ImageViewer.handle_wheel` (image_viewer.py lines 402-420); the sign
of `event.angleDelta().y()` selects multiplication or division by 1.1,
then the same clamp is applied. -/
def handle_wheel (st : ViewerState) (deltaY : ℤ) : ViewerState :=
  match st.original_pixmap with
  | none => st
  | some _ =>
    let z := if 0 < deltaY then st.zoom_factor * (11 / 10) else st.zoom_factor / (11 / 10)
    { st with zoom_factor := clampZoom z }

/-- `ImageViewer.fit_to_viewport` (image_viewer.py lines 362-378):
`zoom_factor = min(viewport.width/pixmap.width, viewport.height/pixmap.height)`,
with NO clamp.  A pixmap of zero width or height makes the Python
division raise `ZeroDivisionError`, modelled as `Except.error`. -/
def fit_to_viewport (st : ViewerState) (viewport : ℚ × ℚ) : Except Unit ViewerState :=
  match st.original_pixmap with
  | none => Except.ok st
  | some p =>
    if p.width = 0 ∨ p.height = 0 then Except.error ()
    else Except.ok { st with
      zoom_factor := min (viewport.1 / (p.width : ℚ)) (viewport.2 / (p.height : ℚ)) }

/-- The argument passed to `ImageViewer.set_image`: a `QPixmap` (possibly
null, i.e. zero-sized), a `QImage`, a numpy array of shape
`height × width × channel`, or Python `None` (which matches none of the
`isinstance` branches). -/
inductive ImageArg where
  | qpixmap (p : Pixmap)
  | qimage (p : Pixmap)
  | ndarray (height width : ℕ)
  | pynone
deriving DecidableEq

/-- `ImageViewer.set_image` (image_viewer.py lines 252-277): store the
converted pixmap (for recognized argument types only), reset the zoom
factor to 1.0, fit to the viewport, and enable the download and zoom
controls.  A `ZeroDivisionError` from `fit_to_viewport` propagates. -/
def set_image (st : ViewerState) (viewport : ℚ × ℚ) (image : ImageArg) :
    Except Unit ViewerState :=
  let st1 :=
    match image with
    | ImageArg.qpixmap p => { st with original_pixmap := some p }
    | ImageArg.qimage p => { st with original_pixmap := some p }
    | ImageArg.ndarray h w => { st with original_pixmap := some ⟨w, h⟩ }
    | ImageArg.pynone => st
  let st2 := { st1 with zoom_factor := 1 }
  match fit_to_viewport st2 viewport with
  | Except.error u => Except.error u
  | Except.ok st3 => Except.ok { st3 with
      downloadEnabled := true
      zoomOutEnabled := true
      zoomResetEnabled := true
      zoomInEnabled := true }

/-- `ScreenGPTApp.zoom_in` (app.py lines 737-741):
`zoom_factor *= 1.2` with no clamp. -/
def app_zoom_in (st : ViewerState) : ViewerState :=
  match st.original_pixmap with
  | none => st
  | some _ => { st with zoom_factor := st.zoom_factor * (12 / 10) }

/-- `ScreenGPTApp.zoom_out` (app.py lines 743-747):
`zoom_factor /= 1.2` with no clamp. -/
def app_zoom_out (st : ViewerState) : ViewerState :=
  match st.original_pixmap with
  | none => st
  | some _ => { st with zoom_factor := st.zoom_factor / (12 / 10) }

/-- One zoom operation of the claim: the viewer zoom-in/out buttons
(`zoom_image 1.1` / `zoom_image 0.9`), a wheel step, fit-to-viewport
(the zoom-reset button), or the app-level zoom-in/out handlers. -/
inductive ZoomOp where
  | zoomInBtn
  | zoomOutBtn
  | wheel (deltaY : ℤ)
  | fitViewport
  | appZoomIn
  | appZoomOut
deriving DecidableEq

/-- Apply one zoom operation to the viewer state (a `ZeroDivisionError`
in fit-to-viewport would abort the handler, leaving the state). -/
def applyZoomOp (viewport : ℚ × ℚ) (st : ViewerState) : ZoomOp → ViewerState
  | ZoomOp.zoomInBtn => zoom_image st (11 / 10)
  | ZoomOp.zoomOutBtn => zoom_image st (9 / 10)
  | ZoomOp.wheel d => handle_wheel st d
  | ZoomOp.fitViewport =>
    match fit_to_viewport st viewport with
    | Except.ok st2 => st2
    | Except.error _ => st
  | ZoomOp.appZoomIn => app_zoom_in st
  | ZoomOp.appZoomOut => app_zoom_out st

/-- Apply a sequence of zoom operations in order. -/
def applyZoomOps (viewport : ℚ × ℚ) (st : ViewerState) (ops : List ZoomOp) : ViewerState :=
  ops.foldl (applyZoomOp viewport) st

/-! ## Screen region picker: `ScreenPicker.capture_selection`
(src/ui/screen_picker.py lines 213-272) -/

/-- Monitor geometry as returned by `sct.monitors[1]`. -/
structure Monitor where
  left : ℤ
  top : ℤ
  width : ℤ
  height : ℤ
deriving DecidableEq

/-- The picker fields that `capture_selection` reads: the two selection
corner points and the scroll offsets. -/
structure PickerState where
  beginP : ℤ × ℤ
  endP : ℤ × ℤ
  scroll_x : ℤ
  scroll_y : ℤ
deriving DecidableEq

/-- The dictionary passed to `sct.grab` (screen_picker.py line 252). -/
structure GrabRect where
  left : ℤ
  top : ℤ
  width : ℤ
  height : ℤ
deriving DecidableEq

/-- Observable outcome of `capture_selection`: the rectangle handed to
`sct.grab` (if the grab was attempted at all), whether an image was
emitted via `image_captured`, and whether the overlay was closed. -/
structure CaptureResult where
  grabbed : Option GrabRect
  emitted : Bool
  closed : Bool
deriving DecidableEq

/-- `ScreenPicker.capture_selection` (screen_picker.py lines 213-272).
`grabOutcome` is the outcome of the `sct.grab`/conversion block:
`Except.error` for an exception (logged, no emission), `Except.ok` for a
successful capture.  The `finally` clause closes the overlay on every
path. -/
def capture_selection (st : PickerState) (monitor : Monitor)
    (grabOutcome : Except String Unit) : CaptureResult :=
  let x1 := min st.beginP.1 st.endP.1 - st.scroll_x
  let y1 := min st.beginP.2 st.endP.2 - st.scroll_y
  let x2 := max st.beginP.1 st.endP.1 - st.scroll_x
  let y2 := max st.beginP.2 st.endP.2 - st.scroll_y
  if x2 - x1 < 10 ∨ y2 - y1 < 10 then
    { grabbed := none, emitted := false, closed := true }
  else
    let r : GrabRect :=
      { left := monitor.left + x1
        top := monitor.top + y1
        width := x2 - x1
        height := y2 - y1 }
    match grabOutcome with
    | Except.ok _ => { grabbed := some r, emitted := true, closed := true }
    | Except.error _ => { grabbed := some r, emitted := false, closed := true }

/-- Modelled from the spec (§3 Data model, "Capture region"): the grab
rectangle the specification describes — the normalized selection
translated by the scroll offset, then intersected with the monitor
bounds.  Used only to compare the code path against the spec. -/
def specGrabRect (st : PickerState) (monitor : Monitor) : GrabRect :=
  let x1 := min st.beginP.1 st.endP.1 - st.scroll_x
  let y1 := min st.beginP.2 st.endP.2 - st.scroll_y
  let x2 := max st.beginP.1 st.endP.1 - st.scroll_x
  let y2 := max st.beginP.2 st.endP.2 - st.scroll_y
  let l := max (monitor.left + x1) monitor.left
  let t := max (monitor.top + y1) monitor.top
  let rgt := min (monitor.left + x2) (monitor.left + monitor.width)
  let b := min (monitor.top + y2) (monitor.top + monitor.height)
  { left := l, top := t, width := rgt - l, height := b - t }

/-- A grab rectangle lies inside the monitor bounds. -/
def GrabRect.insideMonitor (r : GrabRect) (m : Monitor) : Prop :=
  m.left ≤ r.left ∧ m.top ≤ r.top ∧
    r.left + r.width ≤ m.left + m.width ∧ r.top + r.height ≤ m.top + m.height

/-! ## Language selection: `on_language_changed` (src/app.py lines 985-1050)
over `AVAILABLE_LANGUAGES` (src/config.py) -/

inductive Language where
  | english
  | chineseTraditional
  | japanese
  | korean
  | french
  | german
deriving DecidableEq, Fintype

/-- `AVAILABLE_LANGUAGES[name]["code"]` (config.py lines 8-15). -/
def langCode : Language → String
  | Language.english => "en"
  | Language.chineseTraditional => "ch_tra"
  | Language.japanese => "ja"
  | Language.korean => "ko"
  | Language.french => "fr"
  | Language.german => "de"

/-- `AVAILABLE_LANGUAGES[name]["script"]` (config.py lines 8-15). -/
def langScript : Language → String
  | Language.english => "latin"
  | Language.chineseTraditional => "chinese"
  | Language.japanese => "japanese"
  | Language.korean => "korean"
  | Language.french => "latin"
  | Language.german => "latin"

/-- The insertion order of the `AVAILABLE_LANGUAGES` dict, which is the
iteration order of `self.lang_checkboxes`. -/
def allLanguages : List Language :=
  [Language.english, Language.chineseTraditional, Language.japanese,
   Language.korean, Language.french, Language.german]

/-- `asian_langs = ["Chinese (Traditional)", "Japanese", "Korean"]`
(app.py line 1007), in that fixed order. -/
def asian_langs : List Language :=
  [Language.chineseTraditional, Language.japanese, Language.korean]

/-- `on_language_changed` (app.py lines 985-1050), as a pure function of
the checkbox states: returns the new checkbox states and the
`selected_languages` code list handed to `easyocr.Reader`.  Note that
`selected_asian` is built by filtering `asian_langs` in its fixed order,
so `selected_asian[-1]` is the last checked language of that fixed
order, independent of toggle history; and the membership test
`other_langs[0] in AVAILABLE_LANGUAGES.values()` (app.py line 1036)
compares a code string against info dicts and is always false, so its
body is dead code. -/
def on_language_changed (checked : Language → Bool) : (Language → Bool) × List String :=
  let english_selected := checked Language.english
  let selected0 := (allLanguages.filter checked).map langCode
  if selected0.isEmpty then
    (Function.update checked Language.english true, ["en"])
  else
    let selected_asian := asian_langs.filter checked
    let step1 :=
      if 1 < selected_asian.length then
        let last_selected := selected_asian.getLastD Language.english
        ((fun l => if l ∈ asian_langs ∧ l ≠ last_selected then false else checked l),
         (if english_selected then ["en"] else []) ++ [langCode last_selected])
      else (checked, selected0)
    let checked1 := step1.1
    let selected1 := step1.2
    if english_selected ∧ 2 < selected1.length then
      ((fun l => if l ≠ Language.english then false else checked1 l),
       ["en", (selected1.filter (· ≠ "en")).headD ""])
    else if ¬ (english_selected = true) ∧ 1 < selected1.length then
      let first_lang := selected1.headD ""
      ((fun l => langCode l == first_lang), [first_lang])
    else (checked1, selected1)

/-- Clicking a checkbox toggles its state (before the handler runs). -/
def toggleLang (checked : Language → Bool) (l : Language) : Language → Bool :=
  Function.update checked l (! checked l)

/-- Run a sequence of user checkbox clicks, each followed by the
`on_language_changed` handler.  Returns the final checkbox states. -/
def simulateToggles : (Language → Bool) → List Language → (Language → Bool)
  | checked, [] => checked
  | checked, l :: ls => simulateToggles (on_language_changed (toggleLang checked l)).1 ls

/-- The default checkbox states at startup (app.py lines 108-114):
English and Chinese (Traditional) checked. -/
def defaultChecked : Language → Bool
  | Language.english => true
  | Language.chineseTraditional => true
  | _ => false

/-! ## Language-pack downloads: `start_language_download` and its
completion handlers (src/app.py lines 1128-1232) -/

/-- The state the download manager keeps: `self.downloading_languages`
(a set of codes) and the keys of `self.download_threads`. -/
structure DownloadState where
  downloading_languages : Finset String
  download_threads : Finset String
deriving DecidableEq

/-- Outcome of the language-pack existence probe
(`easyocr.Reader([lang_code], download_enabled=False)`, app.py lines
1136-1146): the pack exists, the probe raises a missing-language-pack
error, or it raises some other error. -/
inductive PackCheck where
  | packPresent
  | missingPack
  | otherError
deriving DecidableEq

/-- `start_language_download` (app.py lines 1128-1184): returns the new
state and the code of the spawned download worker, if any. -/
def start_language_download (st : DownloadState) (lang_code : String)
    (check : PackCheck) : DownloadState × Option String :=
  if lang_code ∈ st.downloading_languages ∨ lang_code = "en" then (st, none)
  else
    match check with
    | PackCheck.packPresent => (st, none)
    | PackCheck.otherError => (st, none)
    | PackCheck.missingPack =>
      ({ downloading_languages := insert lang_code st.downloading_languages
         download_threads := insert lang_code st.download_threads },
       some lang_code)

/-- `on_language_download_complete` (app.py lines 1186-1208). -/
def on_language_download_complete (st : DownloadState) (lang_code : String) :
    DownloadState :=
  { downloading_languages := st.downloading_languages.erase lang_code
    download_threads := st.download_threads.erase lang_code }

/-- `on_language_download_error` (app.py lines 1210-1232). -/
def on_language_download_error (st : DownloadState) (lang_code : String) :
    DownloadState :=
  { downloading_languages := st.downloading_languages.erase lang_code
    download_threads := st.download_threads.erase lang_code }

/-! ## Text-to-speech worker: `TTSThread.run` (src/core/tts.py lines 52-96) -/

/-- The thread fields `TTSThread.run` reads on entry. -/
structure TTSState where
  text : String
  hasEngine : Bool
  stop_requested : Bool
  is_running : Bool
deriving DecidableEq

/-- Outcome of `tts_engine.say`/`runAndWait`: normal return or an
exception (caught by the handler at tts.py line 71). -/
inductive SpeakOutcome where
  | ok
  | raises (msg : String)
deriving DecidableEq

/-- The two signals `TTSThread` can emit during `run`. -/
inductive TSignal where
  | started
  | finished
deriving DecidableEq

/-- `TTSThread.run` (tts.py lines 52-96), as the list of emitted signals.
An invocation entered with `_is_running` set returns at line 55 without
emitting anything.  Otherwise `started` is emitted iff the engine is set
and the text non-empty; the `finally` block emits `finished` on every
such path, whether or not `say`/`runAndWait` raised. -/
def TTSThread.run (st : TTSState) (speak : SpeakOutcome) : List TSignal :=
  if st.is_running then []
  else if st.hasEngine = true ∧ st.text ≠ "" then
    match speak with
    | SpeakOutcome.ok => [TSignal.started, TSignal.finished]
    | SpeakOutcome.raises _ => [TSignal.started, TSignal.finished]
  else [TSignal.finished]

/-! ## Shared helper lemmas -/

/-- The clamp always lands in the interval `[0.1, 5.0]`. -/
theorem clampZoom_mem (z : ℚ) : 1 / 10 ≤ clampZoom z ∧ clampZoom z ≤ 5 := by
  constructor
  · exact le_max_left _ _
  · exact max_le (by norm_num) (min_le_right _ _)

/-- Clamping a value already in `[0.1, 5.0]` is the identity. -/
theorem clampZoom_eq_self {z : ℚ} (h1 : 1 / 10 ≤ z) (h2 : z ≤ 5) : clampZoom z = z := by
  unfold clampZoom
  rw [min_eq_left h2, max_eq_right h1]

/-! ## Claim theorems -/

/-- Claim C1: for every list of OCR detections with confidences in
`[0,1]`, the text-position list produced by
`extract_text_from_image` consists of exactly the detections with
confidence strictly above 0.5, each represented by its polygon-corner
center, and is sorted non-decreasingly by `(y, x)` lexicographic order,
for every order in which the OCR engine returns the detections. -/
theorem ocr_positions_filter_sorted (img : Img) (results : List Detection)
    (hconf : ∀ d ∈ results, 0 ≤ d.prob ∧ d.prob ≤ 1) :
    ((extract_text_from_image img (Except.ok results)).2.2).Perm
        ((results.filter confAccept).map toTextPosition)
      ∧ ((extract_text_from_image img (Except.ok results)).2.2).Sorted posLE
      ∧ ∀ results2 : List Detection, results2.Perm results →
          ((extract_text_from_image img (Except.ok results2)).2.2).Perm
              ((extract_text_from_image img (Except.ok results)).2.2)
            ∧ ((extract_text_from_image img (Except.ok results2)).2.2).Sorted posLE := by
  refine ⟨?_, ?_, ?_⟩
  · simpa [extract_text_from_image] using
      List.perm_insertionSort posLE ((results.filter confAccept).map toTextPosition)
  · simpa [extract_text_from_image] using
      List.sorted_insertionSort posLE ((results.filter confAccept).map toTextPosition)
  · intro results2 hperm
    constructor
    · have h1 := List.perm_insertionSort posLE ((results2.filter confAccept).map toTextPosition)
      have h2 := List.perm_insertionSort posLE ((results.filter confAccept).map toTextPosition)
      have h3 : ((results2.filter confAccept).map toTextPosition).Perm
          ((results.filter confAccept).map toTextPosition) :=
        (hperm.filter confAccept).map toTextPosition
      simpa [extract_text_from_image] using h1.trans (h3.trans h2.symm)
    · simpa [extract_text_from_image] using
        List.sorted_insertionSort posLE ((results2.filter confAccept).map toTextPosition)

/-- Sample detection "Hello" centered at `(10, 10)` with confidence 0.9. -/
def dHello : Detection :=
  { p0 := (0, 0), p1 := (20, 0), p2 := (20, 20), p3 := (0, 20)
    text := "Hello", prob := 9 / 10 }

/-- Sample detection "World" centered at `(10, 400)` with confidence 0.6. -/
def dWorld : Detection :=
  { p0 := (0, 390), p1 := (20, 390), p2 := (20, 410), p3 := (0, 410)
    text := "World", prob := 6 / 10 }

/-- Witness for claim C1 at the two sample detections, given to the OCR
stage in bottom-to-top order. -/
theorem ocr_positions_filter_sorted_witness :
    (∀ d ∈ [dWorld, dHello], 0 ≤ d.prob ∧ d.prob ≤ 1)
      ∧ (((extract_text_from_image (Img.source 0) (Except.ok [dWorld, dHello])).2.2).Perm
            (([dWorld, dHello].filter confAccept).map toTextPosition)
          ∧ ((extract_text_from_image (Img.source 0) (Except.ok [dWorld, dHello])).2.2).Sorted posLE
          ∧ ∀ results2 : List Detection, results2.Perm [dWorld, dHello] →
              ((extract_text_from_image (Img.source 0) (Except.ok results2)).2.2).Perm
                  ((extract_text_from_image (Img.source 0) (Except.ok [dWorld, dHello])).2.2)
                ∧ ((extract_text_from_image (Img.source 0) (Except.ok results2)).2.2).Sorted posLE) :=
  have hconf : ∀ d ∈ [dWorld, dHello], 0 ≤ d.prob ∧ d.prob ≤ 1 := by
    intro d hd
    rcases List.mem_cons.mp hd with h | hd2
    · subst h; constructor <;> norm_num [dWorld]
    · rcases List.mem_cons.mp hd2 with h | h
      · subst h; constructor <;> norm_num [dHello]
      · simp at h
  ⟨hconf, ocr_positions_filter_sorted (Img.source 0) [dWorld, dHello] hconf⟩

/-- Claim C10: the OCR extraction is total — an exception anywhere in
the extraction returns the empty string, the unmodified input image and
an empty position list, and the pipeline then proceeds to the
vision-captioning stage with those empty results. -/
theorem ocr_failure_returns_empty_and_continues
    (img : Img) (e : String) (st : RunState)
    (himg : st.img = some img) (hocr : st.ocrOutcome = Except.error e)
    (hm : st.modelInit = true) (hp : st.processorInit = true) :
    extract_text_from_image img st.ocrOutcome = ("", img, [])
      ∧ Event.tabUpdate 0 img ("✅ OCR Analysis Complete\n\n📝 Extracted Text:\n" ++ "")
          ∈ ProcessingThread.run st
      ∧ Event.progress "\n👁️ Running Visual Analysis..." ∈ ProcessingThread.run st := by
  refine ⟨by rw [hocr]; rfl, ?_, ?_⟩ <;>
  · unfold ProcessingThread.run
    rw [himg, hocr]
    rcases st.visionOutcome with ev | vt
    · simp [extract_text_from_image, hm, hp]
    · rcases st.apiKey with _ | key
      · simp [extract_text_from_image, hm, hp]
      · rcases eq_or_ne key "" with hk | hk <;>
          simp [extract_text_from_image, hm, hp, hk]

/-- Witness for claim C10: a run whose OCR stage raises. -/
theorem ocr_failure_returns_empty_and_continues_witness :
    (let st : RunState :=
      { img := some (Img.source 0), modelInit := true, processorInit := true
        ocrOutcome := Except.error "boom", visionOutcome := Except.ok "a cat"
        apiKey := some "sk-test", llmOutcome := Except.ok "resp" }
     extract_text_from_image (Img.source 0) st.ocrOutcome = ("", Img.source 0, [])
      ∧ Event.tabUpdate 0 (Img.source 0) ("✅ OCR Analysis Complete\n\n📝 Extracted Text:\n" ++ "")
          ∈ ProcessingThread.run st
      ∧ Event.progress "\n👁️ Running Visual Analysis..." ∈ ProcessingThread.run st) :=
  ocr_failure_returns_empty_and_continues (Img.source 0) "boom" _ rfl rfl rfl rfl

/-- Claim C5 (amended): only a failure of the vision-captioning stage
(raising inside the outer try) emits a single error event and stops the
run before any final-analysis event or finished emission; LLM failures
are caught internally and OCR failures are swallowed, so those do not
behave this way. -/
theorem pipeline_vision_failure_single_error (st : RunState) (img : Img) (e : String)
    (himg : st.img = some img) (hm : st.modelInit = true) (hp : st.processorInit = true)
    (hv : st.visionOutcome = Except.error e) :
    (ProcessingThread.run st).countP (fun ev => ev.isError) = 1
      ∧ (ProcessingThread.run st).countP (fun ev => ev.isFinalTab) = 0
      ∧ (∀ r, Event.finished r ∉ ProcessingThread.run st)
      ∧ (ProcessingThread.run st).getLast?
          = some (Event.error ("Error in processing thread: " ++ e)) := by
  unfold ProcessingThread.run
  rw [himg, hv]
  refine ⟨?_, ?_, ?_, ?_⟩ <;>
    simp [hm, hp, Event.isError, Event.isFinalTab, List.countP_cons]

/-- A run state whose vision stage raises. -/
def visionFailState : RunState :=
  { img := some (Img.source 0), modelInit := true, processorInit := true
    ocrOutcome := Except.ok [], visionOutcome := Except.error "CUDA out of memory"
    apiKey := some "sk-test", llmOutcome := Except.ok "resp" }

/-- Witness for the amended claim C5 at a concrete vision failure. -/
theorem pipeline_vision_failure_single_error_witness :
    (ProcessingThread.run visionFailState).countP (fun ev => ev.isError) = 1
      ∧ (ProcessingThread.run visionFailState).countP (fun ev => ev.isFinalTab) = 0
      ∧ (∀ r, Event.finished r ∉ ProcessingThread.run visionFailState)
      ∧ (ProcessingThread.run visionFailState).getLast?
          = some (Event.error ("Error in processing thread: " ++ "CUDA out of memory")) :=
  pipeline_vision_failure_single_error visionFailState (Img.source 0)
    "CUDA out of memory" rfl rfl rfl rfl

/-- A run state whose LLM request fails (every earlier input is fine). -/
def llmFailState : RunState :=
  { img := some (Img.source 0), modelInit := true, processorInit := true
    ocrOutcome := Except.ok [], visionOutcome := Except.ok "a screenshot"
    apiKey := some "sk-test", llmOutcome := Except.error "API connection failed" }

/-- Counterexample to claim C5 as stated: when the LLM request fails, the
run emits NO error event, still emits the final-analysis tab update, and
still emits `finished` (carrying the failure text), contradicting both
the single-error-event and the no-later-stage parts of the claim. -/
theorem pipeline_stage_failure_counterexample :
    (ProcessingThread.run llmFailState).countP (fun ev => ev.isError) = 0
      ∧ (ProcessingThread.run llmFailState).countP (fun ev => ev.isFinalTab) = 1
      ∧ Event.finished ("Error: " ++ "API connection failed")
          ∈ ProcessingThread.run llmFailState := by
  refine ⟨?_, ?_, ?_⟩ <;>
    simp [ProcessingThread.run, llmFailState, extract_text_from_image,
      Event.isError, Event.isFinalTab, List.countP_cons]

/-- Claim C2 (amended): the clamp used by the viewer is idempotent, and
the viewer's own zoom operations (`zoom_image`, the wheel handler)
either leave the state untouched (no pixmap) or land the zoom factor in
`[0.1, 5.0]`; but fit-to-viewport and the app-level zoom handlers apply
no clamp, so sequences containing them can leave the interval. -/
theorem zoom_clamp_amended :
    (∀ z : ℚ, clampZoom (clampZoom z) = clampZoom z)
      ∧ (∀ (st : ViewerState) (factor : ℚ),
          zoom_image st factor = st
            ∨ (1 / 10 ≤ (zoom_image st factor).zoom_factor
                ∧ (zoom_image st factor).zoom_factor ≤ 5))
      ∧ (∀ (st : ViewerState) (d : ℤ),
          handle_wheel st d = st
            ∨ (1 / 10 ≤ (handle_wheel st d).zoom_factor
                ∧ (handle_wheel st d).zoom_factor ≤ 5)) := by
  refine ⟨?_, ?_, ?_⟩
  · intro z
    exact clampZoom_eq_self (clampZoom_mem z).1 (clampZoom_mem z).2
  · intro st factor
    unfold zoom_image
    rcases st.original_pixmap with _ | p
    · exact Or.inl rfl
    · exact Or.inr (clampZoom_mem _)
  · intro st d
    unfold handle_wheel
    rcases st.original_pixmap with _ | p
    · exact Or.inl rfl
    · exact Or.inr (clampZoom_mem _)

/-- The viewer state right after an image of 100 by 100 pixels was set
with all controls enabled. -/
def viewerSmallImage : ViewerState :=
  { original_pixmap := some ⟨100, 100⟩, zoom_factor := 1
    downloadEnabled := true, zoomOutEnabled := true
    zoomResetEnabled := true, zoomInEnabled := true }

/-- Counterexample to claim C2 as stated: a single fit-to-viewport
operation in a 2000 by 2000 viewport sets the zoom factor to 20, far
outside `[0.1, 5.0]`; the app-level zoom-in from a factor of 5 yields 6,
also outside the interval. -/
theorem zoom_range_counterexample :
    (applyZoomOps (2000, 2000) viewerSmallImage [ZoomOp.fitViewport]).zoom_factor = 20
      ∧ ¬ ((applyZoomOps (2000, 2000) viewerSmallImage [ZoomOp.fitViewport]).zoom_factor ≤ 5)
      ∧ (app_zoom_in { viewerSmallImage with zoom_factor := 5 }).zoom_factor = 6 := by
  refine ⟨?_, ?_, ?_⟩ <;>
    norm_num [applyZoomOps, applyZoomOp, fit_to_viewport, app_zoom_in, viewerSmallImage]

/-- Claim C3: a committed selection whose width or height (after
normalizing the corners and applying the scroll offset) is below 10
pixels emits no captured image, attempts no grab, and closes the
overlay. -/
theorem picker_min_size_no_capture (st : PickerState) (m : Monitor)
    (g : Except String Unit)
    (h : (max st.beginP.1 st.endP.1 - st.scroll_x) - (min st.beginP.1 st.endP.1 - st.scroll_x) < 10
       ∨ (max st.beginP.2 st.endP.2 - st.scroll_y) - (min st.beginP.2 st.endP.2 - st.scroll_y) < 10) :
    capture_selection st m g = { grabbed := none, emitted := false, closed := true } := by
  unfold capture_selection
  rw [if_pos]
  exact h

/-- Witness for claim C3: a 5 by 300 pixel selection is discarded. -/
theorem picker_min_size_no_capture_witness :
    ((max (0 : ℤ) 5 - 0) - (min (0 : ℤ) 5 - 0) < 10
        ∨ (max (0 : ℤ) 300 - 0) - (min (0 : ℤ) 300 - 0) < 10)
      ∧ capture_selection ⟨(0, 0), (5, 300), 0, 0⟩ ⟨0, 0, 1920, 1080⟩ (Except.ok ())
          = { grabbed := none, emitted := false, closed := true } :=
  ⟨Or.inl (by norm_num), picker_min_size_no_capture _ _ _ (Or.inl (by norm_num))⟩

/-- Claim C4 (amended): for a committed selection meeting the minimum
size, the rectangle handed to the grab call is the normalized selection
translated by the scroll offset and offset by the monitor origin, with
NO intersection against the monitor bounds. -/
theorem picker_grab_rect_amended (st : PickerState) (m : Monitor)
    (g : Except String Unit)
    (hw : 10 ≤ max st.beginP.1 st.endP.1 - min st.beginP.1 st.endP.1)
    (hh : 10 ≤ max st.beginP.2 st.endP.2 - min st.beginP.2 st.endP.2) :
    (capture_selection st m g).grabbed
      = some { left := m.left + (min st.beginP.1 st.endP.1 - st.scroll_x)
               top := m.top + (min st.beginP.2 st.endP.2 - st.scroll_y)
               width := max st.beginP.1 st.endP.1 - min st.beginP.1 st.endP.1
               height := max st.beginP.2 st.endP.2 - min st.beginP.2 st.endP.2 } := by
  unfold capture_selection
  rw [if_neg (by push_neg; omega)]
  rcases g with ge | gu <;>
    · simp only [Option.some.injEq, GrabRect.mk.injEq, true_and, and_true]
      omega

/-- Witness for the amended claim C4: a 50 by 50 selection scrolled by
100 pixels grabs at x = -100, left of the monitor origin. -/
theorem picker_grab_rect_amended_witness :
    ((10 : ℤ) ≤ max 0 50 - min 0 50) ∧ ((10 : ℤ) ≤ max 0 50 - min 0 50)
      ∧ (capture_selection ⟨(0, 0), (50, 50), 100, 0⟩ ⟨0, 0, 1920, 1080⟩ (Except.ok ())).grabbed
          = some { left := (0 : ℤ) + (min (0 : ℤ) 50 - 100)
                   top := (0 : ℤ) + (min (0 : ℤ) 50 - 0)
                   width := max (0 : ℤ) 50 - min (0 : ℤ) 50
                   height := max (0 : ℤ) 50 - min (0 : ℤ) 50 } :=
  ⟨by norm_num, by norm_num,
    picker_grab_rect_amended ⟨(0, 0), (50, 50), 100, 0⟩ ⟨0, 0, 1920, 1080⟩
      (Except.ok ()) (by norm_num) (by norm_num)⟩

/-- Counterexample to claim C4 as stated: with the selection corners
`(0,0)`-`(50,50)` and a horizontal scroll offset of 100, the rectangle
handed to the grab call starts at x = -100, outside the monitor, and
differs from the monitor-intersected rectangle the claim describes. -/
theorem picker_grab_rect_counterexample :
    (capture_selection ⟨(0, 0), (50, 50), 100, 0⟩ ⟨0, 0, 1920, 1080⟩ (Except.ok ())).grabbed
        = some { left := -100, top := 0, width := 50, height := 50 }
      ∧ ¬ GrabRect.insideMonitor { left := -100, top := 0, width := 50, height := 50 }
            ⟨0, 0, 1920, 1080⟩
      ∧ some (specGrabRect ⟨(0, 0), (50, 50), 100, 0⟩ ⟨0, 0, 1920, 1080⟩)
          ≠ (capture_selection ⟨(0, 0), (50, 50), 100, 0⟩ ⟨0, 0, 1920, 1080⟩ (Except.ok ())).grabbed := by
  refine ⟨?_, ?_, ?_⟩ <;>
    simp [capture_selection, specGrabRect, GrabRect.insideMonitor]

/-- Claim C6 (amended): `set_image` has no null/empty guard.  Passing a
value that matches none of the accepted image types (Python `None`)
leaves the stored pixmap unchanged but still resets the zoom factor
(to 1.0, refit against the previously stored pixmap if any) and enables
the download and zoom controls; passing an empty (null) pixmap stores it
and raises a `ZeroDivisionError` inside fit-to-viewport. -/
theorem set_image_no_guard_amended :
    (∀ (st : ViewerState) (vp : ℚ × ℚ) (res : ViewerState),
        set_image st vp ImageArg.pynone = Except.ok res →
          res.original_pixmap = st.original_pixmap
            ∧ res.downloadEnabled = true ∧ res.zoomOutEnabled = true
            ∧ res.zoomResetEnabled = true ∧ res.zoomInEnabled = true
            ∧ (st.original_pixmap = none → res.zoom_factor = 1))
      ∧ (∀ (st : ViewerState) (vp : ℚ × ℚ) (hgt : ℕ),
          set_image st vp (ImageArg.qpixmap ⟨0, hgt⟩) = Except.error ()) := by
  constructor
  · intro st vp res h
    rcases hb : st.original_pixmap with _ | p
    · simp [set_image, fit_to_viewport, hb] at h
      subst h
      simp [hb]
    · rcases hw : p.width with _ | w
      · simp [set_image, fit_to_viewport, hb, hw] at h
      · rcases hh : p.height with _ | ht
        · simp [set_image, fit_to_viewport, hb, hw, hh] at h
        · simp [set_image, fit_to_viewport, hb, hw, hh] at h
          subst h
          simp [hb]
  · intro st vp hgt
    simp [set_image, fit_to_viewport]

/-- The viewer state after `clear()` (image_viewer.py lines 454-462): no
pixmap, zoom 1.0, all controls disabled. -/
def clearedViewer : ViewerState :=
  { original_pixmap := none, zoom_factor := 1
    downloadEnabled := false, zoomOutEnabled := false
    zoomResetEnabled := false, zoomInEnabled := false }

/-- Witness for the amended claim C6: calling `set_image` with `None` on
the cleared viewer succeeds and the conclusions hold there. -/
theorem set_image_no_guard_amended_witness :
    (set_image clearedViewer (800, 600) ImageArg.pynone
        = Except.ok { clearedViewer with
            downloadEnabled := true, zoomOutEnabled := true
            zoomResetEnabled := true, zoomInEnabled := true })
      ∧ ({ clearedViewer with
            downloadEnabled := true, zoomOutEnabled := true
            zoomResetEnabled := true, zoomInEnabled := true } : ViewerState).original_pixmap
          = clearedViewer.original_pixmap
      ∧ set_image clearedViewer (800, 600) (ImageArg.qpixmap ⟨0, 0⟩) = Except.error () := by
  refine ⟨rfl, ?_, set_image_no_guard_amended.2 clearedViewer (800, 600) 0⟩
  exact (set_image_no_guard_amended.1 clearedViewer (800, 600) _ rfl).1

/-- Counterexample to claim C6 as stated: on the cleared viewer (all
controls disabled), `set_image` with `None` is not rejected — it returns
a state with the download and zoom controls enabled, so the viewer state
changed. -/
theorem set_image_null_counterexample :
    set_image clearedViewer (800, 600) ImageArg.pynone
        = Except.ok { clearedViewer with
            downloadEnabled := true, zoomOutEnabled := true
            zoomResetEnabled := true, zoomInEnabled := true }
      ∧ set_image clearedViewer (800, 600) ImageArg.pynone ≠ Except.ok clearedViewer := by
  constructor
  · rfl
  · intro h
    simp [set_image, fit_to_viewport, clearedViewer] at h

/-- Claim C7 (amended): whenever two or more Asian languages are checked
simultaneously, the handler collapses the active selection to exactly
one Asian language — the one occurring LAST in the fixed checkbox order
Chinese (Traditional), Japanese, Korean among the checked ones,
independent of toggle history — plus English if it was already
checked. -/
theorem language_collapse_amended (checked : Language → Bool)
    (h : 2 ≤ (asian_langs.filter checked).length) :
    (on_language_changed checked).2
      = (if checked Language.english then ["en"] else [])
          ++ [langCode ((asian_langs.filter checked).getLastD Language.english)] := by
  revert checked
  decide

/-- Checkbox states with exactly Japanese and Korean checked. -/
def twoAsianChecked : Language → Bool
  | Language.japanese => true
  | Language.korean => true
  | _ => false

/-- Witness for the amended claim C7 at the Japanese-plus-Korean state. -/
theorem language_collapse_amended_witness :
    (2 ≤ (asian_langs.filter twoAsianChecked).length)
      ∧ (on_language_changed twoAsianChecked).2
          = (if twoAsianChecked Language.english then ["en"] else [])
              ++ [langCode ((asian_langs.filter twoAsianChecked).getLastD Language.english)] :=
  ⟨by decide, language_collapse_amended twoAsianChecked (by decide)⟩

/-- Counterexample to claim C7 as stated: starting from no selection,
click Korean, then click Japanese (so Japanese is the most recently
toggled language).  The handler keeps Korean — the last Asian language
in the fixed checkbox order — and unchecks Japanese, so the surviving
language is NOT the most recently toggled one. -/
theorem language_most_recent_counterexample :
    ((simulateToggles (fun _ => false) [Language.korean, Language.japanese])
        Language.korean = true)
      ∧ ((simulateToggles (fun _ => false) [Language.korean, Language.japanese])
          Language.japanese = false)
      ∧ (on_language_changed
            (toggleLang (simulateToggles (fun _ => false) [Language.korean])
              Language.japanese)).2 = ["ko"]
      ∧ langCode Language.japanese ≠ "ko" := by
  decide

/-- Claim C8: starting a download for an identifier already in the
in-flight set is a no-op (state unchanged, no worker spawned), and the
completion and failure handlers remove the identifier from the in-flight
set. -/
theorem download_dedup_and_removal (st : DownloadState) (lang_code : String)
    (check : PackCheck) (h : lang_code ∈ st.downloading_languages) :
    start_language_download st lang_code check = (st, none)
      ∧ lang_code ∉ (on_language_download_complete st lang_code).downloading_languages
      ∧ lang_code ∉ (on_language_download_error st lang_code).downloading_languages := by
  refine ⟨?_, ?_, ?_⟩
  · unfold start_language_download
    rw [if_pos (Or.inl h)]
  · exact Finset.not_mem_erase _ _
  · exact Finset.not_mem_erase _ _

/-- A download-manager state with a Japanese download in flight. -/
def dlState : DownloadState :=
  { downloading_languages := {"ja"}, download_threads := {"ja"} }

/-- Witness for claim C8 at the in-flight Japanese download. -/
theorem download_dedup_and_removal_witness :
    ("ja" ∈ dlState.downloading_languages)
      ∧ (start_language_download dlState "ja" PackCheck.missingPack = (dlState, none)
          ∧ "ja" ∉ (on_language_download_complete dlState "ja").downloading_languages
          ∧ "ja" ∉ (on_language_download_error dlState "ja").downloading_languages) :=
  ⟨Finset.mem_singleton_self "ja",
    download_dedup_and_removal dlState "ja" PackCheck.missingPack
      (Finset.mem_singleton_self "ja")⟩

/-- Claim C9 (amended): every invocation of the TTS worker's `run` that
is entered with the running flag clear emits the finished signal exactly
once, including when the underlying speak call raises; an invocation
entered while the flag is set returns immediately and emits nothing. -/
theorem tts_finished_once_amended (st : TTSState) (speak : SpeakOutcome)
    (h : st.is_running = false) :
    (TTSThread.run st speak).count TSignal.finished = 1 := by
  unfold TTSThread.run
  simp only [h, Bool.false_eq_true, if_false]
  by_cases hc : st.hasEngine = true ∧ st.text ≠ ""
  · rw [if_pos hc]
    cases speak <;> rfl
  · rw [if_neg hc]
    rfl

/-- The TTS thread state before a normal run. -/
def idleTTS : TTSState :=
  { text := "hello", hasEngine := true, stop_requested := false, is_running := false }

/-- Witness for the amended claim C9: even a raising speak call yields
exactly one finished emission. -/
theorem tts_finished_once_amended_witness :
    idleTTS.is_running = false
      ∧ (TTSThread.run idleTTS (SpeakOutcome.raises "engine busy")).count TSignal.finished = 1 :=
  ⟨rfl, tts_finished_once_amended idleTTS (SpeakOutcome.raises "engine busy") rfl⟩

/-- The TTS thread state with the running flag already set. -/
def busyTTS : TTSState :=
  { text := "hello", hasEngine := true, stop_requested := false, is_running := true }

/-- Counterexample to claim C9 as stated: an invocation of `run` entered
while the running flag is set emits no signals at all, so the finished
signal is not emitted exactly once for that invocation. -/
theorem tts_no_finished_counterexample :
    TTSThread.run busyTTS SpeakOutcome.ok = []
      ∧ (TTSThread.run busyTTS SpeakOutcome.ok).count TSignal.finished ≠ 1 := by
  exact ⟨rfl, by decide⟩

end ScreenGPT
